import Mathlib

/-!
Shallow embedding of src/src/timer1Squarewavegenerator.cpp and proofs about
its frequency/period solver, register conversions and menu actions.

Modelling conventions:
* The AVR registers TCCR1A, TCCR1B (8 bit), OCR1A (16 bit) and TIMSK1 are the
  natural-number fields of `TimerRegs`.
* C `double` arithmetic is modelled by exact rational arithmetic; the C
  library `round` (half away from zero) agrees with Mathlib `round` (half
  towards plus infinity) on the nonnegative values that occur here.
* `uint32_t` arithmetic is modelled with explicit `% 4294967296`; the cast of
  the compare count to `uint16_t` is modelled with `% 65536`.
* Serial output is modelled by the inductive type `Msg`; numeric serial input
  is a parameter of each menu action (the value returned by parseInt).
-/

namespace Timer1Sq

/-- Bit position COM1A0 of TCCR1A on the ATmega328 (compare output A). -/
def COM1A0 : ℕ := 6

/-- Bit position COM1B0 of TCCR1A on the ATmega328 (compare output B). -/
def COM1B0 : ℕ := 4

/-- Base clock of the generator, fo = 8000000 Hz (half of fcpu). -/
def fo : ℕ := 8000000

/-- The Timer-1 registers written by the program. -/
structure TimerRegs where
  TCCR1A : ℕ
  TCCR1B : ℕ
  OCR1A  : ℕ
  TIMSK1 : ℕ
deriving DecidableEq

/-- TCCR1A value produced by the pin-select lines of setFrequency and
setPeriod: the register is cleared, then pin 9 sets COM1A0 and pin 10 sets
COM1B0. -/
def pinBits (pin : ℕ) : ℕ :=
  if pin = 9 then 1 <<< COM1A0 else if pin = 10 then 1 <<< COM1B0 else 0

/-- The local variable `pre` of setFrequency after the threshold cascade.
The source checks freq < 123, freq < 16, freq < 2 in order, each overriding
the previous assignment; the final freq < 1 branch updates only TCCR1B and
leaves `pre` untouched (source lines 150-153). -/
def freqSelPre (freq : ℕ) : ℕ :=
  let pre := 1
  let pre := if freq < 123 then 8 else pre
  let pre := if freq < 16 then 64 else pre
  let pre := if freq < 2 then 256 else pre
  pre

/-- TCCR1B value written by setFrequency: CTC mode bit WGM12 plus the
prescaler code, following the same threshold cascade as `freqSelPre`. -/
def freqTccr1b (freq : ℕ) : ℕ :=
  let b := 0b00001001
  let b := if freq < 123 then 0b00001010 else b
  let b := if freq < 16 then 0b00001011 else b
  let b := if freq < 2 then 0b00001100 else b
  let b := if freq < 1 then 0b00001101 else b
  b

/-- The compare count round(fo / pre / freq - 1.0) computed by setFrequency,
with the C doubles modelled as exact rationals. -/
def freqCompare (pre freq : ℕ) : ℤ :=
  round ((fo : ℚ) / pre / freq - 1)

/-- setFrequency(freq, pin): writes TCCR1A from the pin, TCCR1B from the
threshold cascade, OCR1A from the rounded compare count (cast to uint16) and
clears TIMSK1. -/
def setFrequency (freq pin : ℕ) : TimerRegs :=
  { TCCR1A := pinBits pin
    TCCR1B := freqTccr1b freq
    OCR1A  := (freqCompare (freqSelPre freq) freq).toNat % 65536
    TIMSK1 := 0 }

/-- The local variable `pre` of setPeriod: base 8, upgraded by the cascade
period > 65536, > 524288, > 2097152, and finally forced to 1 when
period == 0. -/
def periodSelPre (period : ℕ) : ℕ :=
  let pre := 8
  let pre := if period > 65536 then 64 else pre
  let pre := if period > 524288 then 256 else pre
  let pre := if period > 2097152 then 1024 else pre
  let pre := if period = 0 then 1 else pre
  pre

/-- TCCR1B value written by setPeriod, same cascade as `periodSelPre`. -/
def periodTccr1b (period : ℕ) : ℕ :=
  let b := 0b00001010
  let b := if period > 65536 then 0b00001011 else b
  let b := if period > 524288 then 0b00001100 else b
  let b := if period > 2097152 then 0b00001101 else b
  let b := if period = 0 then 0b00001001 else b
  b

/-- setPeriod(period, pin): ocr_long = period * 8 / pre - 1 in uint32_t
arithmetic (wrapping modulo 2^32), then OCR1A = (uint16_t) ocr_long. -/
def setPeriod (period pin : ℕ) : TimerRegs :=
  let pre := periodSelPre period
  let ocr_long := (period * 8 % 4294967296 / pre + 4294967295) % 4294967296
  { TCCR1A := pinBits pin
    TCCR1B := periodTccr1b period
    OCR1A  := ocr_long % 65536
    TIMSK1 := 0 }

/-- The lookup table int pre[] = { 0, 1, 8, 64, 256, 1024 } used by
getFrequencyFromRegisters, getPeriodFromRegisters and printRegisterSettings.
An index outside the array is undefined behaviour in C; it is modelled by the
default value 0. -/
def preTable : List ℕ := [0, 1, 8, 64, 256, 1024]

/-- getFrequencyFromRegisters: 8000000.0 / (OCR1A + 1) / pre[TCCR1B & 7],
C doubles modelled as exact rationals. -/
def getFrequencyFromRegisters (r : TimerRegs) : ℚ :=
  (8000000 : ℚ) / ((r.OCR1A : ℚ) + 1) / ((preTable.getD (r.TCCR1B % 8) 0 : ℕ) : ℚ)

/-- getPeriodFromRegisters: (OCR1A + 1) * pre[TCCR1B & 7] / 8.0 in
microseconds, C doubles modelled as exact rationals. -/
def getPeriodFromRegisters (r : TimerRegs) : ℚ :=
  ((r.OCR1A : ℚ) + 1) * ((preTable.getD (r.TCCR1B % 8) 0 : ℕ) : ℚ) / 8

/-- Input mode of the menu. -/
inductive INPUT_MODE
  | FREQUENCY
  | PERIOD
deriving DecidableEq

/-- The serial messages the modelled actions can emit. -/
inductive Msg
  | outOfRangeValue
  | outOfRangePrescaler
  | outOfRangeOcr
  | registerSettings
  | pinSetTo10
  | pinSetTo9
deriving DecidableEq

/-- enterValue with the parsed uint32 value as parameter: values outside
1 .. 8000000 are rejected with a message and no register change; otherwise
the value is routed to setFrequency or setPeriod by the input mode and the
settings are printed. -/
def enterValue (value : ℕ) (mode : INPUT_MODE) (pinOut : ℕ) (r : TimerRegs) :
    TimerRegs × List Msg :=
  if value < 1 ∨ value > 8000000 then (r, [Msg.outOfRangeValue])
  else
    match mode with
    | INPUT_MODE.FREQUENCY => (setFrequency value pinOut, [Msg.registerSettings])
    | INPUT_MODE.PERIOD => (setPeriod value pinOut, [Msg.registerSettings])

/-- setPrescaler with the parsed int32 value as parameter: values outside
1 .. 5 are rejected; otherwise the low three bits of TCCR1B are replaced. -/
def setPrescaler (preBits : ℤ) (r : TimerRegs) : TimerRegs × List Msg :=
  if preBits < 1 ∨ preBits > 5 then (r, [Msg.outOfRangePrescaler])
  else ({ r with TCCR1B := r.TCCR1B &&& 0b11111000 ||| preBits.toNat },
    [Msg.registerSettings])

/-- setOCR1A with the parsed int32 value as parameter: values outside
0 .. 65535 are rejected; otherwise OCR1A is written. -/
def setOCR1A (value : ℤ) (r : TimerRegs) : TimerRegs × List Msg :=
  if value < 0 ∨ value > 65535 then (r, [Msg.outOfRangeOcr])
  else ({ r with OCR1A := value.toNat % 65536 }, [Msg.registerSettings])

/-- toggleOutputPin acting on the pinOut global and TCCR1A: switches between
pin 9 (COM1A0) and pin 10 (COM1B0); the other registers are not touched. -/
def toggleOutputPin (pinOut : ℕ) (r : TimerRegs) : ℕ × TimerRegs × Msg :=
  if pinOut = 9 then (10, { r with TCCR1A := 1 <<< COM1B0 }, Msg.pinSetTo10)
  else (9, { r with TCCR1A := 1 <<< COM1A0 }, Msg.pinSetTo9)

/-- A compare count fits the 16-bit register when it lies in [0, 65535]. -/
def fitsCompare (pre freq : ℕ) : Prop :=
  0 ≤ freqCompare pre freq ∧ freqCompare pre freq ≤ 65535

instance (pre freq : ℕ) : Decidable (fitsCompare pre freq) :=
  inferInstanceAs (Decidable (_ ∧ _))

/-! Helper lemmas. -/

lemma round_eq_of {q : ℚ} {n : ℤ} (h1 : (n : ℚ) ≤ q + 1/2) (h2 : q + 1/2 < n + 1) :
    round q = n := by
  rw [round_eq]
  exact Int.floor_eq_iff.mpr ⟨h1, h2⟩

lemma fits_of (pre freq : ℕ) (hpre : 0 < pre) (hf : 0 < freq)
    (hub : (pre : ℚ) * freq ≤ 8000000)
    (hlb : (16000000 : ℚ) < 131073 * ((pre : ℚ) * freq)) :
    fitsCompare pre freq := by
  have hpq : (0 : ℚ) < pre := by exact_mod_cast hpre
  have hfq : (0 : ℚ) < freq := by exact_mod_cast hf
  have hprod : (0 : ℚ) < (pre : ℚ) * freq := mul_pos hpq hfq
  have hdd : (fo : ℚ) / pre / freq = 8000000 / ((pre : ℚ) * freq) := by
    rw [show (fo : ℚ) = 8000000 by norm_num [fo], div_div]
  have hy1 : (1 : ℚ) ≤ 8000000 / ((pre : ℚ) * freq) := (one_le_div hprod).mpr hub
  have hy2 : 8000000 / ((pre : ℚ) * freq) < 131073 / 2 := by
    rw [div_lt_iff₀ hprod]; linarith
  constructor
  · unfold freqCompare
    rw [hdd, round_eq]
    exact Int.le_floor.mpr (by push_cast; linarith)
  · unfold freqCompare
    rw [hdd, round_eq]
    have h : ⌊8000000 / ((pre : ℚ) * freq) - 1 + 1 / 2⌋ < 65536 :=
      Int.floor_lt.mpr (by push_cast; linarith)
    omega

lemma not_fits_of (pre freq : ℕ) (hpre : 0 < pre) (hf : 0 < freq)
    (h : 131073 * ((pre : ℚ) * freq) ≤ 16000000) :
    ¬ fitsCompare pre freq := by
  have hpq : (0 : ℚ) < pre := by exact_mod_cast hpre
  have hfq : (0 : ℚ) < freq := by exact_mod_cast hf
  have hprod : (0 : ℚ) < (pre : ℚ) * freq := mul_pos hpq hfq
  have hdd : (fo : ℚ) / pre / freq = 8000000 / ((pre : ℚ) * freq) := by
    rw [show (fo : ℚ) = 8000000 by norm_num [fo], div_div]
  have hy : (131073 / 2 : ℚ) ≤ 8000000 / ((pre : ℚ) * freq) := by
    rw [le_div_iff₀ hprod]; linarith
  rintro ⟨-, hub⟩
  unfold freqCompare at hub
  rw [hdd, round_eq] at hub
  have h2 : (65536 : ℤ) ≤ ⌊8000000 / ((pre : ℚ) * freq) - 1 + 1 / 2⌋ :=
    Int.le_floor.mpr (by push_cast; linarith)
  omega

lemma freqSelPre_pos (freq : ℕ) : 0 < freqSelPre freq := by
  simp only [freqSelPre]
  split_ifs <;> norm_num

/-- For freq ≥ 1 the prescaler encoded into TCCR1B by setFrequency decodes,
through the lookup table of the register-reading functions, to the value of
the local variable pre used for the compare count. -/
lemma preTable_decode_freq (freq : ℕ) (h : 1 ≤ freq) :
    preTable.getD (freqTccr1b freq % 8) 0 = freqSelPre freq := by
  simp only [freqTccr1b, freqSelPre, preTable]
  split_ifs <;> first | rfl | omega

/-- The prescaler encoded into TCCR1B by setPeriod decodes, through the
lookup table of the register-reading functions, to the value of the local
variable pre. -/
lemma preTable_decode_period (p : ℕ) :
    preTable.getD (periodTccr1b p % 8) 0 = periodSelPre p := by
  simp only [periodTccr1b, periodSelPre, preTable]
  split_ifs <;> rfl

lemma freq_fits (freq : ℕ) (h1 : 1 ≤ freq) (h2 : freq ≤ 8000000) :
    fitsCompare (freqSelPre freq) freq := by
  have hfq1 : (1 : ℚ) ≤ (freq : ℚ) := by exact_mod_cast h1
  have hfq2 : (freq : ℚ) ≤ 8000000 := by exact_mod_cast h2
  rcases le_or_lt 123 freq with hA | hA
  · have hsel : freqSelPre freq = 1 := by simp only [freqSelPre]; split_ifs <;> omega
    have hcq : (123 : ℚ) ≤ (freq : ℚ) := by exact_mod_cast hA
    rw [hsel]
    exact fits_of 1 freq (by norm_num) (by omega) (by push_cast; linarith)
      (by push_cast; linarith)
  · rcases le_or_lt 16 freq with hB | hB
    · have hsel : freqSelPre freq = 8 := by simp only [freqSelPre]; split_ifs <;> omega
      have hcq1 : (16 : ℚ) ≤ (freq : ℚ) := by exact_mod_cast hB
      have hcq2 : (freq : ℚ) ≤ 122 := by exact_mod_cast Nat.le_of_lt_succ hA
      rw [hsel]
      exact fits_of 8 freq (by norm_num) (by omega) (by push_cast; linarith)
        (by push_cast; linarith)
    · rcases le_or_lt 2 freq with hC | hC
      · have hsel : freqSelPre freq = 64 := by simp only [freqSelPre]; split_ifs <;> omega
        have hcq1 : (2 : ℚ) ≤ (freq : ℚ) := by exact_mod_cast hC
        have hcq2 : (freq : ℚ) ≤ 15 := by exact_mod_cast Nat.le_of_lt_succ hB
        rw [hsel]
        exact fits_of 64 freq (by norm_num) (by omega) (by push_cast; linarith)
          (by push_cast; linarith)
      · have hsel : freqSelPre freq = 256 := by simp only [freqSelPre]; split_ifs <;> omega
        have hone : freq = 1 := by omega
        rw [hsel, hone]
        exact fits_of 256 1 (by norm_num) (by omega) (by push_cast; linarith)
          (by push_cast; linarith)

lemma freq_minimal (freq : ℕ) (h1 : 1 ≤ freq) (h2 : freq ≤ 8000000) :
    ∀ q ∈ [1, 8, 64, 256, 1024], q < freqSelPre freq → ¬ fitsCompare q freq := by
  intro q hq hlt
  simp only [List.mem_cons, List.not_mem_nil, or_false] at hq
  rcases le_or_lt 123 freq with hA | hA
  · have hsel : freqSelPre freq = 1 := by simp only [freqSelPre]; split_ifs <;> omega
    rw [hsel] at hlt
    rcases hq with h | h | h | h | h <;> omega
  · rcases le_or_lt 16 freq with hB | hB
    · have hsel : freqSelPre freq = 8 := by simp only [freqSelPre]; split_ifs <;> omega
      rw [hsel] at hlt
      have hcq2 : (freq : ℚ) ≤ 122 := by exact_mod_cast Nat.le_of_lt_succ hA
      have hq1 : q = 1 := by rcases hq with h | h | h | h | h <;> omega
      rw [hq1]
      exact not_fits_of 1 freq (by norm_num) (by omega) (by push_cast; linarith)
    · rcases le_or_lt 2 freq with hC | hC
      · have hsel : freqSelPre freq = 64 := by simp only [freqSelPre]; split_ifs <;> omega
        rw [hsel] at hlt
        have hcq2 : (freq : ℚ) ≤ 15 := by exact_mod_cast Nat.le_of_lt_succ hB
        have hq18 : q = 1 ∨ q = 8 := by rcases hq with h | h | h | h | h <;> omega
        rcases hq18 with h | h <;> rw [h]
        · exact not_fits_of 1 freq (by norm_num) (by omega) (by push_cast; linarith)
        · exact not_fits_of 8 freq (by norm_num) (by omega) (by push_cast; linarith)
      · have hsel : freqSelPre freq = 256 := by simp only [freqSelPre]; split_ifs <;> omega
        rw [hsel] at hlt
        have hone : freq = 1 := by omega
        have hq186 : q = 1 ∨ q = 8 ∨ q = 64 := by rcases hq with h | h | h | h | h <;> omega
        rcases hq186 with h | h | h <;> rw [h, hone]
        · exact not_fits_of 1 1 (by norm_num) (by norm_num) (by push_cast; linarith)
        · exact not_fits_of 8 1 (by norm_num) (by norm_num) (by push_cast; linarith)
        · exact not_fits_of 64 1 (by norm_num) (by norm_num) (by push_cast; linarith)

/-! Claim theorems. -/

/-- C1: for every integer freq in [1, 8000000], setFrequency selects the
smallest prescaler from the ordered set {1, 8, 64, 256, 1024} such that the
compare value fits in [0, 65535]; concretely prescaler 1 for freq >= 123,
8 for 16 <= freq < 123, 64 for 2 <= freq < 16 and 256 for 1 <= freq < 2,
with the smallest-frequency matching threshold winning; in particular
freq = 122 selects prescaler 8 and freq = 123 selects prescaler 1. -/
theorem setFrequency_selects_smallest_prescaler (freq : ℕ)
    (h1 : 1 ≤ freq) (h2 : freq ≤ 8000000) :
    preTable.getD ((setFrequency freq 9).TCCR1B % 8) 0 = freqSelPre freq
    ∧ fitsCompare (freqSelPre freq) freq
    ∧ (∀ q ∈ [1, 8, 64, 256, 1024], q < freqSelPre freq → ¬ fitsCompare q freq)
    ∧ freqSelPre freq
        = (if 123 ≤ freq then 1 else if 16 ≤ freq then 8
            else if 2 ≤ freq then 64 else 256)
    ∧ freqSelPre 122 = 8 ∧ freqSelPre 123 = 1 := by
  refine ⟨preTable_decode_freq freq h1, freq_fits freq h1 h2,
    freq_minimal freq h1 h2, ?_, by decide, by decide⟩
  simp only [freqSelPre]
  split_ifs <;> omega

theorem setFrequency_selects_smallest_prescaler_witness :
    ((1 : ℕ) ≤ 1000 ∧ (1000 : ℕ) ≤ 8000000)
    ∧ (preTable.getD ((setFrequency 1000 9).TCCR1B % 8) 0 = freqSelPre 1000
      ∧ fitsCompare (freqSelPre 1000) 1000
      ∧ (∀ q ∈ [1, 8, 64, 256, 1024], q < freqSelPre 1000 → ¬ fitsCompare q 1000)
      ∧ freqSelPre 1000
          = (if 123 ≤ (1000 : ℕ) then 1 else if 16 ≤ (1000 : ℕ) then 8
              else if 2 ≤ (1000 : ℕ) then 64 else 256)
      ∧ freqSelPre 122 = 8 ∧ freqSelPre 123 = 1) :=
  ⟨⟨by norm_num, by norm_num⟩,
    setFrequency_selects_smallest_prescaler 1000 (by norm_num) (by norm_num)⟩

/-- C2 (counterexample): the effective frequency error is NOT bounded by the
discretization step prescaler / clockBase. At freq = 4000001 the chosen
prescaler is 1, the effective frequency is 4000000 Hz, so the error is 1 Hz,
far above the claimed bound 1 / 8000000 Hz. -/
theorem setFrequency_freq_error_exceeds_step :
    getFrequencyFromRegisters (setFrequency 4000001 9) = 4000000
    ∧ ¬ |getFrequencyFromRegisters (setFrequency 4000001 9) - 4000001|
        ≤ (freqSelPre 4000001 : ℚ) / 8000000 := by
  have hsel : freqSelPre 4000001 = 1 := by norm_num [freqSelPre]
  have hc : freqCompare (freqSelPre 4000001) 4000001 = 1 := by
    rw [hsel]
    unfold freqCompare fo
    apply round_eq_of <;> norm_num
  have hocr : (setFrequency 4000001 9).OCR1A = 1 := by
    show (freqCompare (freqSelPre 4000001) 4000001).toNat % 65536 = 1
    rw [hc]
    rfl
  have hTB : (setFrequency 4000001 9).TCCR1B % 8 = 1 := by decide
  have hfreq : getFrequencyFromRegisters (setFrequency 4000001 9) = 4000000 := by
    unfold getFrequencyFromRegisters
    rw [hTB, hocr]
    norm_num [preTable]
  refine ⟨hfreq, ?_⟩
  rw [hfreq, hsel]
  norm_num

/-- C2 (amended): for every integer freq in [1, 8000000], setFrequency writes
the compare value round(clockBase / prescaler / freq) - 1, that value lies in
[0, 65535], and the effective PERIOD in seconds (the register-derived period,
which getPeriodFromRegisters reports in microseconds) differs from the
requested period 1 / freq by an amount bounded by the discretization step of
the chosen prescaler, step = prescaler / clockBase. -/
theorem setFrequency_compare_and_period_error (freq : ℕ)
    (h1 : 1 ≤ freq) (h2 : freq ≤ 8000000) :
    ((setFrequency freq 9).OCR1A : ℤ)
        = round ((fo : ℚ) / (freqSelPre freq) / freq) - 1
    ∧ (setFrequency freq 9).OCR1A ≤ 65535
    ∧ |getPeriodFromRegisters (setFrequency freq 9) / 1000000 - 1 / (freq : ℚ)|
        ≤ (freqSelPre freq : ℚ) / 8000000 := by
  obtain ⟨hlo, hhi⟩ := freq_fits freq h1 h2
  have hcomp : freqCompare (freqSelPre freq) freq
      = round ((fo : ℚ) / (freqSelPre freq) / freq) - 1 := by
    unfold freqCompare
    rw [round_sub_one]
  have hocr : (setFrequency freq 9).OCR1A
      = (freqCompare (freqSelPre freq) freq).toNat := by
    show (freqCompare (freqSelPre freq) freq).toNat % 65536 = _
    omega
  have hcast : ((setFrequency freq 9).OCR1A : ℤ)
      = freqCompare (freqSelPre freq) freq := by
    rw [hocr]
    omega
  have hppos : 0 < freqSelPre freq := freqSelPre_pos freq
  have hpq : (0 : ℚ) < (freqSelPre freq : ℚ) := by exact_mod_cast hppos
  have hfq : (0 : ℚ) < (freq : ℚ) := by exact_mod_cast h1
  refine ⟨by rw [hcast, hcomp], by rw [hocr]; omega, ?_⟩
  have hdec : preTable.getD ((setFrequency freq 9).TCCR1B % 8) 0
      = freqSelPre freq := preTable_decode_freq freq h1
  have hround : ((setFrequency freq 9).OCR1A : ℤ) + 1
      = round ((fo : ℚ) / (freqSelPre freq) / freq) := by
    rw [hcast, hcomp]
    ring
  have hocrq : ((setFrequency freq 9).OCR1A : ℚ) + 1
      = ((round ((fo : ℚ) / (freqSelPre freq) / freq) : ℤ) : ℚ) := by
    exact_mod_cast congrArg (fun z : ℤ => (z : ℚ)) hround
  have hT : getPeriodFromRegisters (setFrequency freq 9)
      = ((round ((fo : ℚ) / (freqSelPre freq) / freq) : ℤ) : ℚ)
          * (freqSelPre freq : ℚ) / 8 := by
    unfold getPeriodFromRegisters
    rw [hdec, hocrq]
  have hyval : ((fo : ℚ) / (freqSelPre freq) / freq) * (freqSelPre freq : ℚ)
      / 8000000 = 1 / (freq : ℚ) := by
    rw [show (fo : ℚ) = 8000000 by norm_num [fo]]
    field_simp
    ring
  have key : getPeriodFromRegisters (setFrequency freq 9) / 1000000
        - 1 / (freq : ℚ)
      = (((round ((fo : ℚ) / (freqSelPre freq) / freq) : ℤ) : ℚ)
          - (fo : ℚ) / (freqSelPre freq) / freq)
        * ((freqSelPre freq : ℚ) / 8000000) := by
    rw [hT, ← hyval]
    ring
  rw [key, abs_mul, abs_of_nonneg (by positivity : (0 : ℚ) ≤ (freqSelPre freq : ℚ) / 8000000)]
  have h12 : |((round ((fo : ℚ) / (freqSelPre freq) / freq) : ℤ) : ℚ)
      - (fo : ℚ) / (freqSelPre freq) / freq| ≤ 1 / 2 := by
    rw [abs_sub_comm]
    exact abs_sub_round _
  calc |((round ((fo : ℚ) / (freqSelPre freq) / freq) : ℤ) : ℚ)
        - (fo : ℚ) / (freqSelPre freq) / freq|
        * ((freqSelPre freq : ℚ) / 8000000)
      ≤ 1 * ((freqSelPre freq : ℚ) / 8000000) := by
        apply mul_le_mul_of_nonneg_right (le_trans h12 (by norm_num)) (by positivity)
    _ = (freqSelPre freq : ℚ) / 8000000 := by ring

theorem setFrequency_compare_and_period_error_witness :
    ((1 : ℕ) ≤ 1000 ∧ (1000 : ℕ) ≤ 8000000)
    ∧ (((setFrequency 1000 9).OCR1A : ℤ)
        = round ((fo : ℚ) / (freqSelPre 1000) / 1000) - 1
      ∧ (setFrequency 1000 9).OCR1A ≤ 65535
      ∧ |getPeriodFromRegisters (setFrequency 1000 9) / 1000000 - 1 / ((1000 : ℕ) : ℚ)|
          ≤ (freqSelPre 1000 : ℚ) / 8000000) :=
  ⟨⟨by norm_num, by norm_num⟩,
    setFrequency_compare_and_period_error 1000 (by norm_num) (by norm_num)⟩

/-- C3: for every integer period in [1, 8000000], setPeriod starts from base
prescaler 8 and upgrades to 64 when period > 65536, to 256 when
period > 524288, to 1024 when period > 2097152, later checks overriding; in
particular period = 65536 keeps prescaler 8 and period = 65537 selects 64. -/
theorem setPeriod_prescaler_thresholds (p : ℕ) (h1 : 1 ≤ p) (h2 : p ≤ 8000000) :
    preTable.getD ((setPeriod p 9).TCCR1B % 8) 0 = periodSelPre p
    ∧ periodSelPre p
        = (if p > 2097152 then 1024 else if p > 524288 then 256
            else if p > 65536 then 64 else 8)
    ∧ periodSelPre 65536 = 8 ∧ periodSelPre 65537 = 64 := by
  have hTB : (setPeriod p 9).TCCR1B = periodTccr1b p := rfl
  refine ⟨by rw [hTB]; exact preTable_decode_period p, ?_, by decide, by decide⟩
  simp only [periodSelPre]
  split_ifs <;> omega

theorem setPeriod_prescaler_thresholds_witness :
    ((1 : ℕ) ≤ 100000 ∧ (100000 : ℕ) ≤ 8000000)
    ∧ (preTable.getD ((setPeriod 100000 9).TCCR1B % 8) 0 = periodSelPre 100000
      ∧ periodSelPre 100000
          = (if (100000 : ℕ) > 2097152 then 1024
              else if (100000 : ℕ) > 524288 then 256
              else if (100000 : ℕ) > 65536 then 64 else 8)
      ∧ periodSelPre 65536 = 8 ∧ periodSelPre 65537 = 64) :=
  ⟨⟨by norm_num, by norm_num⟩,
    setPeriod_prescaler_thresholds 100000 (by norm_num) (by norm_num)⟩

/-- C4: for every integer period in [1, 8000000], setPeriod computes the
compare value as period * 8 / prescaler - 1 with truncating integer
arithmetic (the quotient is at least 1, so the subtraction does not wrap),
and the resulting compare value lies in [0, 65535]. -/
theorem setPeriod_truncating_compare (p : ℕ) (h1 : 1 ≤ p) (h2 : p ≤ 8000000) :
    1 ≤ p * 8 / periodSelPre p
    ∧ (setPeriod p 9).OCR1A = p * 8 / periodSelPre p - 1
    ∧ (setPeriod p 9).OCR1A ≤ 65535 := by
  simp only [setPeriod, periodSelPre]
  split_ifs <;> refine ⟨?_, ?_, ?_⟩ <;> omega

theorem setPeriod_truncating_compare_witness :
    ((1 : ℕ) ≤ 100000 ∧ (100000 : ℕ) ≤ 8000000)
    ∧ (1 ≤ 100000 * 8 / periodSelPre 100000
      ∧ (setPeriod 100000 9).OCR1A = 100000 * 8 / periodSelPre 100000 - 1
      ∧ (setPeriod 100000 9).OCR1A ≤ 65535) :=
  ⟨⟨by norm_num, by norm_num⟩,
    setPeriod_truncating_compare 100000 (by norm_num) (by norm_num)⟩

/-- C10: setPeriod applied to the defensive input 0 forces prescaler 1; the
uint32 compare count 0 * 8 / 1 - 1 wraps around to 4294967295, and the 16-bit
compare register is written as 65535. -/
theorem setPeriod_zero_wraps :
    periodSelPre 0 = 1
    ∧ (setPeriod 0 9).TCCR1B = 0b00001001
    ∧ ((0 : ℕ) * 8 % 4294967296 / periodSelPre 0 + 4294967295) % 4294967296
        = 4294967295
    ∧ (setPeriod 0 9).OCR1A = 65535 := by
  refine ⟨by decide, by decide, by decide, by decide⟩

/-- C6: setFrequency(1000) produces prescaler 1 and compare value 7999, and
the frequency derived back from the registers is exactly 1000 Hz. -/
theorem setFrequency_1000_roundtrip :
    freqSelPre 1000 = 1
    ∧ (setFrequency 1000 9).OCR1A = 7999
    ∧ getFrequencyFromRegisters (setFrequency 1000 9) = 1000 := by
  have hsel : freqSelPre 1000 = 1 := by norm_num [freqSelPre]
  have hc : freqCompare (freqSelPre 1000) 1000 = 7999 := by
    rw [hsel]
    unfold freqCompare fo
    apply round_eq_of <;> norm_num
  have hocr : (setFrequency 1000 9).OCR1A = 7999 := by
    show (freqCompare (freqSelPre 1000) 1000).toNat % 65536 = 7999
    rw [hc]
    rfl
  have hTB : (setFrequency 1000 9).TCCR1B % 8 = 1 := by decide
  refine ⟨hsel, hocr, ?_⟩
  unfold getFrequencyFromRegisters
  rw [hTB, hocr]
  norm_num [preTable]

/-- C5 (counterexample): the product of getFrequencyFromRegisters (Hz) and
getPeriodFromRegisters (microseconds) is 1000000, not approximately 1: at the
1000 Hz state (prescaler code 1, OCR1A 7999) the product is 1000000, which is
not within any floating-point tolerance of 1. -/
theorem effective_product_not_one :
    getFrequencyFromRegisters ⟨64, 9, 7999, 0⟩
        * getPeriodFromRegisters ⟨64, 9, 7999, 0⟩ = 1000000
    ∧ ¬ |getFrequencyFromRegisters ⟨64, 9, 7999, 0⟩
        * getPeriodFromRegisters ⟨64, 9, 7999, 0⟩ - 1| ≤ 1 / 2 := by
  have hf : getFrequencyFromRegisters ⟨64, 9, 7999, 0⟩ = 1000 := by
    unfold getFrequencyFromRegisters
    norm_num [preTable]
  have hT : getPeriodFromRegisters ⟨64, 9, 7999, 0⟩ = 1000 := by
    unfold getPeriodFromRegisters
    norm_num [preTable]
  rw [hf, hT]
  norm_num

/-- C5 (amended): for every TimerRegs state whose prescaler decodes to one of
{1, 8, 64, 256, 1024} and whose compare value is in [0, 65535], the product
of the derived frequency (Hz) and the derived period (microseconds) is
exactly 1000000; equivalently, frequency times period-in-seconds is 1. -/
theorem effective_product_eq_million (r : TimerRegs)
    (hp : preTable.getD (r.TCCR1B % 8) 0 ∈ ({1, 8, 64, 256, 1024} : Finset ℕ))
    (_hocr : r.OCR1A ≤ 65535) :
    getFrequencyFromRegisters r * getPeriodFromRegisters r = 1000000 := by
  have hpne : preTable.getD (r.TCCR1B % 8) 0 ≠ 0 := by
    simp only [Finset.mem_insert, Finset.mem_singleton] at hp
    rcases hp with h | h | h | h | h <;> omega
  have hpq : ((preTable.getD (r.TCCR1B % 8) 0 : ℕ) : ℚ) ≠ 0 :=
    Nat.cast_ne_zero.mpr hpne
  have hoq : ((r.OCR1A : ℚ) + 1) ≠ 0 := by positivity
  unfold getFrequencyFromRegisters getPeriodFromRegisters
  rw [div_div, div_mul_div_comm,
    div_eq_iff (mul_ne_zero (mul_ne_zero hoq hpq) (by norm_num : (8 : ℚ) ≠ 0))]
  ring

theorem effective_product_eq_million_witness :
    (preTable.getD ((⟨64, 9, 7999, 0⟩ : TimerRegs).TCCR1B % 8) 0
        ∈ ({1, 8, 64, 256, 1024} : Finset ℕ)
      ∧ (⟨64, 9, 7999, 0⟩ : TimerRegs).OCR1A ≤ 65535)
    ∧ getFrequencyFromRegisters ⟨64, 9, 7999, 0⟩
        * getPeriodFromRegisters ⟨64, 9, 7999, 0⟩ = 1000000 :=
  ⟨⟨by decide, by decide⟩,
    effective_product_eq_million ⟨64, 9, 7999, 0⟩ (by decide) (by decide)⟩

/-- C7: for every entered value outside [1, 8000000], in either input mode,
enterValue leaves the registers unchanged and emits the out-of-range message;
the action is a total function, so the control loop continues. -/
theorem enterValue_out_of_range_rejects (value : ℕ) (mode : INPUT_MODE)
    (pinOut : ℕ) (r : TimerRegs) (h : value < 1 ∨ value > 8000000) :
    enterValue value mode pinOut r = (r, [Msg.outOfRangeValue]) := by
  unfold enterValue
  rw [if_pos h]

theorem enterValue_out_of_range_rejects_witness :
    (((0 : ℕ) < 1 ∨ (0 : ℕ) > 8000000)
      ∧ enterValue 0 INPUT_MODE.FREQUENCY 9 ⟨64, 9, 7999, 0⟩
          = (⟨64, 9, 7999, 0⟩, [Msg.outOfRangeValue]))
    ∧ (((8000001 : ℕ) < 1 ∨ (8000001 : ℕ) > 8000000)
      ∧ enterValue 8000001 INPUT_MODE.PERIOD 9 ⟨64, 9, 7999, 0⟩
          = (⟨64, 9, 7999, 0⟩, [Msg.outOfRangeValue])) :=
  ⟨⟨Or.inl (by norm_num),
      enterValue_out_of_range_rejects 0 INPUT_MODE.FREQUENCY 9 ⟨64, 9, 7999, 0⟩
        (Or.inl (by norm_num))⟩,
    ⟨Or.inr (by norm_num),
      enterValue_out_of_range_rejects 8000001 INPUT_MODE.PERIOD 9 ⟨64, 9, 7999, 0⟩
        (Or.inr (by norm_num))⟩⟩

/-- C8 (counterexample): malformed input parsed as 0 is NOT rejected by
setOCR1A: 0 passes its range check 0 .. 65535, so the compare register is
overwritten with 0 and the state changes. -/
theorem setOCR1A_accepts_zero :
    setOCR1A 0 ⟨64, 9, 7999, 0⟩ = (⟨64, 9, 0, 0⟩, [Msg.registerSettings])
    ∧ (⟨64, 9, 0, 0⟩ : TimerRegs).OCR1A ≠ (⟨64, 9, 7999, 0⟩ : TimerRegs).OCR1A := by
  refine ⟨by decide, by decide⟩

/-- C8 (amended): malformed non-numeric input yields the parsed value 0; for
enterValue and setPrescaler this fails the range check and is rejected with a
message and no register change, but for setOCR1A the value 0 is inside the
allowed range 0 .. 65535 and is accepted, setting the compare register to 0. -/
theorem malformed_zero_input_behavior (mode : INPUT_MODE) (pinOut : ℕ)
    (r : TimerRegs) :
    enterValue 0 mode pinOut r = (r, [Msg.outOfRangeValue])
    ∧ setPrescaler 0 r = (r, [Msg.outOfRangePrescaler])
    ∧ setOCR1A 0 r = ({ r with OCR1A := 0 }, [Msg.registerSettings]) := by
  refine ⟨?_, ?_, ?_⟩
  · unfold enterValue
    rw [if_pos (Or.inl (by norm_num))]
  · unfold setPrescaler
    rw [if_pos (Or.inl (by norm_num))]
  · unfold setOCR1A
    rw [if_neg (by norm_num)]
    norm_num

/-- C9: toggling the output pin twice returns to the original pin selection,
and each single toggle changes only TCCR1A (the output-compare-enable bits):
TCCR1B, OCR1A and TIMSK1 are left unchanged. -/
theorem toggleOutputPin_involutive_frame (pinOut : ℕ) (r : TimerRegs)
    (h : pinOut = 9 ∨ pinOut = 10) :
    (toggleOutputPin (toggleOutputPin pinOut r).1 (toggleOutputPin pinOut r).2.1).1
        = pinOut
    ∧ (toggleOutputPin pinOut r).2.1.TCCR1B = r.TCCR1B
    ∧ (toggleOutputPin pinOut r).2.1.OCR1A = r.OCR1A
    ∧ (toggleOutputPin pinOut r).2.1.TIMSK1 = r.TIMSK1 := by
  rcases h with h | h <;> subst h <;> simp [toggleOutputPin]

theorem toggleOutputPin_involutive_frame_witness :
    ((9 : ℕ) = 9 ∨ (9 : ℕ) = 10)
    ∧ ((toggleOutputPin (toggleOutputPin 9 ⟨64, 9, 7999, 0⟩).1
          (toggleOutputPin 9 ⟨64, 9, 7999, 0⟩).2.1).1 = 9
      ∧ (toggleOutputPin 9 ⟨64, 9, 7999, 0⟩).2.1.TCCR1B
          = (⟨64, 9, 7999, 0⟩ : TimerRegs).TCCR1B
      ∧ (toggleOutputPin 9 ⟨64, 9, 7999, 0⟩).2.1.OCR1A
          = (⟨64, 9, 7999, 0⟩ : TimerRegs).OCR1A
      ∧ (toggleOutputPin 9 ⟨64, 9, 7999, 0⟩).2.1.TIMSK1
          = (⟨64, 9, 7999, 0⟩ : TimerRegs).TIMSK1) :=
  ⟨Or.inl rfl,
    toggleOutputPin_involutive_frame 9 ⟨64, 9, 7999, 0⟩ (Or.inl rfl)⟩

end Timer1Sq
